import Mathlib

/-!
Verification development for the pdf-llm-chat backend.

This file gives a shallow embedding, in Lean 4, of the data model and the
operations of the repository (account management, PDF upload/parse/select,
chat turns and the background LLM task), translated from the Python source:

* `src/app/pdf/domain/models.py`, `src/app/pdf/application/services.py`,
  `src/app/pdf/infrastucture/repositories/mongo_pdf_repository.py`,
  `src/app/pdf/controller/routers.py`, `src/app/pdf/controller/dependencies.py`
* `src/app/chat/domain/models.py`, `src/app/chat/application/services.py`,
  `src/app/chat/controllers/dependencies.py` (`_defer_llm_task`),
  `src/app/chat/controllers/routers.py`
* `src/app/account/domain/models.py`, `src/app/account/application/services.py`,
  `src/app/account/controller/routers.py`, `src/app/lib/security.py`

Persistence (MongoDB collections, SQL tables) is modelled as explicit list
states threaded through the operations; external effects (bcrypt verification,
JWT decoding, the `curl` subprocess, JSON interpretation of the LLM response
body) are modelled as explicit environment data the operations are
parameterised by.  Timestamps are modelled as natural numbers.
-/

namespace PdfChat

/-- Decidable equality for `Except` outcomes (used to evaluate embedded
operations on concrete inputs). -/
instance {ε α : Type _} [DecidableEq ε] [DecidableEq α] : DecidableEq (Except ε α)
  | .error a, .error b => decidable_of_iff (a = b) (by simp)
  | .ok a, .ok b => decidable_of_iff (a = b) (by simp)
  | .error _, .ok _ => isFalse fun h => Except.noConfusion h
  | .ok _, .error _ => isFalse fun h => Except.noConfusion h

/-! ## PDF domain model (src/app/pdf/domain/models.py) -/

/-- Embeds `PDFParseStatus` enum from `src/app/pdf/domain/models.py`. -/
inductive PDFParseStatus where
  | UNPARSED
  | PARSING
  | PARSED_SUCCESS
  | PARSED_FAILURE
  deriving DecidableEq, Repr

/-- Embeds `PDFDocument` domain entity from `src/app/pdf/domain/models.py`.
`id` and `gridfs_file_id` are MongoDB ObjectIds kept as strings, as in the
source; `upload_date` is a timestamp modelled as `Nat`. -/
structure PDFDocument where
  id : String
  user_id : Nat
  gridfs_file_id : String
  original_filename : String
  upload_date : Nat
  parse_status : PDFParseStatus
  parse_error_message : Option String
  is_selected_for_chat : Bool
  parsed_text_id : Option String
  deriving DecidableEq, Repr

/-- Embeds `PDFDocument.mark_as_parsing`: sets status to PARSING and clears the error
message (the guard in the source is a `pass`, so it has no effect). -/
def PDFDocument.mark_as_parsing (d : PDFDocument) : PDFDocument :=
  { d with parse_status := .PARSING, parse_error_message := none }

/-- Embeds `PDFDocument.mark_parse_success`. -/
def PDFDocument.mark_parse_success (d : PDFDocument) (parsed_text_document_id : String) :
    PDFDocument :=
  { d with parse_status := .PARSED_SUCCESS, parsed_text_id := some parsed_text_document_id,
           parse_error_message := none }

/-- Embeds `PDFDocument.mark_parse_failure`. -/
def PDFDocument.mark_parse_failure (d : PDFDocument) (error_message : String) : PDFDocument :=
  { d with parse_status := .PARSED_FAILURE, parse_error_message := some error_message }

/-- Embeds `PDFDocument.select_for_chat` raises `PDFNotParsedError` unless the parse
status is PARSED_SUCCESS; here the raise is an `Except.error` carrying the
pdf id. -/
def PDFDocument.select_for_chat (d : PDFDocument) : Except String PDFDocument :=
  if d.parse_status ≠ PDFParseStatus.PARSED_SUCCESS then .error d.id
  else .ok { d with is_selected_for_chat := true }

/-- Embeds `PDFDocument.deselect_for_chat`. -/
def PDFDocument.deselect_for_chat (d : PDFDocument) : PDFDocument :=
  { d with is_selected_for_chat := false }

/-! ## Mongo PDF repository (mongo_pdf_repository.py)

The `pdf_metadata_collection` is modelled as a `List PDFDocument`.  MongoDB
`_id` values are unique; theorems that need this take a `Nodup` hypothesis on
the stored ids. -/

/-- Validity of a string as a BSON ObjectId: `bson.ObjectId(s)` succeeds for a
string exactly when it is 24 hexadecimal characters; otherwise it raises
`InvalidId`, which `get_pdf_meta_by_id` / `set_pdf_selected_for_chat` catch. -/
def isValidObjectId (s : String) : Bool :=
  s.length == 24 && s.toList.all fun c =>
    (Char.isDigit c) || ((97 ≤ c.toNat && c.toNat ≤ 102) || (65 ≤ c.toNat && c.toNat ≤ 70))

/-- Embeds `MongoPDFRepository.get_pdf_meta_by_id`: `ObjectId(pdf_id)` failing is
caught and yields `None`; otherwise `find_one({"_id": obj_id, "user_id":
user_id})`. -/
def get_pdf_meta_by_id (coll : List PDFDocument) (pdf_id : String) (user_id : Nat) :
    Option PDFDocument :=
  if isValidObjectId pdf_id then
    coll.find? fun d => d.id == pdf_id && d.user_id == user_id
  else
    none

/-- Insertion of one element into a list sorted descending by a `Nat` key
(helper for the repository `sort(key, -1)` queries). -/
def insertDescBy (key : α → Nat) (a : α) : List α → List α
  | [] => [a]
  | b :: l => if key b < key a then a :: b :: l else b :: insertDescBy key a l

/-- Sorting a list descending by a `Nat` key (structural insertion sort,
modelling the store's `sort(key, -1)`). -/
def sortDescBy (key : α → Nat) : List α → List α
  | [] => []
  | a :: l => insertDescBy key a (sortDescBy key l)

/-- Embeds `MongoPDFRepository.get_all_pdf_meta_for_user`: documents of the user
sorted by `upload_date` descending, then `skip`/`limit`. -/
def get_all_pdf_meta_for_user (coll : List PDFDocument) (user_id skip limit : Nat) :
    List PDFDocument :=
  (((sortDescBy (·.upload_date) (coll.filter fun d => d.user_id == user_id)).drop skip).take limit)

/-- Embeds `MongoPDFRepository.count_all_pdf_meta_for_user`. -/
def count_all_pdf_meta_for_user (coll : List PDFDocument) (user_id : Nat) : Nat :=
  (coll.filter fun d => d.user_id == user_id).length

/-! ## Chat domain model (src/app/chat/domain/models.py) -/

/-- Embeds `LLMResponseStatus` enum from `src/app/chat/domain/models.py`.  Note the
enum has NO member named `FAILED`; the background task's references to
`LLMResponseStatus.FAILED` therefore raise `AttributeError` at run time. -/
inductive LLMResponseStatus where
  | PENDING
  | PROCESSING
  | COMPLETED_SUCCESS
  | FAILED_RETRIES_EXHAUSTED
  deriving DecidableEq, Repr

/-- Embeds `ChatMessageTurn` domain entity from `src/app/chat/domain/models.py`. -/
structure ChatMessageTurn where
  id : Option Nat
  user_id : Nat
  pdf_document_id : String
  pdf_original_filename : String
  user_message_content : String
  user_message_timestamp : Nat
  llm_response_content : Option String
  llm_response_status : LLMResponseStatus
  llm_response_timestamp : Option Nat
  retry_attempts : Nat
  deriving DecidableEq, Repr

/-! ## Chat repository (sqlalchmey_chat_repository.py)

The `chat_logs` table is modelled as a `List ChatMessageTurn` plus a counter
for the autoincrement primary key. -/

/-- Embeds `SQLAlchemyChatRepository.get_chat_history_for_user`: rows of the user,
ordered by `user_message_timestamp` descending with `id` descending as
tie-break, then `offset skip` / `limit`.  The descending (timestamp, id)
order is modelled with a single `Nat` key built from both components of the
rows being compared pointwise; for the claims below only the slicing lengths
matter, and sorting preserves length. -/
def get_chat_history_for_user (table : List ChatMessageTurn) (user_id skip limit : Nat) :
    List ChatMessageTurn :=
  (((sortDescBy (fun t => t.user_message_timestamp) (table.filter fun t => t.user_id == user_id)).drop
      skip).take limit)

/-- Embeds `SQLAlchemyChatRepository.count_chat_history_for_user`. -/
def count_chat_history_for_user (table : List ChatMessageTurn) (user_id : Nat) : Nat :=
  (table.filter fun t => t.user_id == user_id).length

/-! ## Pagination (PDFApplicationService.list_pdfs_for_user,
ChatApplicationService.get_chat_history) -/

/-- Embeds `PaginatedPDFListResponse` payload (data kept as domain objects). -/
structure PaginatedPDFListResponse where
  total_items : Nat
  total_pages : Nat
  current_page : Nat
  page_size : Nat
  data : List PDFDocument
  deriving Repr

/-- Embeds `PDFApplicationService.list_pdfs_for_user`: `skip = (page - 1) * size`,
`limit = size`, `total_pages = (total + size - 1) // size if total > 0 else 0`. -/
def list_pdfs_for_user (coll : List PDFDocument) (current_user_id page size : Nat) :
    PaginatedPDFListResponse :=
  let skip := (page - 1) * size
  let pdf_docs_domain := get_all_pdf_meta_for_user coll current_user_id skip size
  let total_items := count_all_pdf_meta_for_user coll current_user_id
  let total_pages := if total_items > 0 then (total_items + size - 1) / size else 0
  { total_items := total_items, total_pages := total_pages, current_page := page,
    page_size := size, data := pdf_docs_domain }

/-- Embeds `PaginatedChatHistoryResponse` payload. -/
structure PaginatedChatHistoryResponse where
  total_items : Nat
  total_pages : Nat
  current_page : Nat
  page_size : Nat
  data : List ChatMessageTurn
  deriving Repr

/-- Embeds `ChatApplicationService.get_chat_history`: same pagination arithmetic as
the PDF listing (the source computes `total_items`/`total_pages` twice in a
row; the second computation overwrites the first with the same values). -/
def get_chat_history (table : List ChatMessageTurn) (current_user_id page size : Nat) :
    PaginatedChatHistoryResponse :=
  let skip := (page - 1) * size
  let history := get_chat_history_for_user table current_user_id skip size
  let total_items := count_chat_history_for_user table current_user_id
  let total_pages := if total_items > 0 then (total_items + size - 1) / size else 0
  { total_items := total_items, total_pages := total_pages, current_page := page,
    page_size := size, data := history }

/-- A sample PDF document (user 1, upload date `n`), for concrete pagination
instances. -/
def samplePdfDoc (n : Nat) : PDFDocument :=
  { id := "64ddeeff0011223344556677", user_id := 1, gridfs_file_id := "g",
    original_filename := "doc.pdf", upload_date := n, parse_status := .UNPARSED,
    parse_error_message := none, is_selected_for_chat := false, parsed_text_id := none }

/-- 25 documents owned by user 1. -/
def pdfColl25 : List PDFDocument := (List.range 25).map samplePdfDoc

/-- A sample chat turn (user 1, message timestamp `n`). -/
def sampleTurn (n : Nat) : ChatMessageTurn :=
  { id := some n, user_id := 1, pdf_document_id := "64ddeeff0011223344556677",
    pdf_original_filename := "doc.pdf", user_message_content := "hi",
    user_message_timestamp := n, llm_response_content := none,
    llm_response_status := .PENDING, llm_response_timestamp := none, retry_attempts := 0 }

/-- 25 chat turns of user 1. -/
def chatTable25 : List ChatMessageTurn := (List.range 25).map sampleTurn


/-! ## Account domain and service (src/app/account) -/

/-- Embeds `User` domain entity from `src/app/account/domain/models.py`; the UUID is
kept as a string, timestamps are omitted (no claim mentions them). -/
structure User where
  id : Option Nat
  user_uuid : String
  email : String
  hashed_password : String
  is_active : Bool
  deriving DecidableEq, Repr

/-- Typed exceptions of the account module
(`src/app/account/domain/exceptions.py`). -/
inductive AccountError where
  | UserAlreadyExists
  | InvalidCredentials
  | UserNotFound
  deriving DecidableEq, Repr

/-- Embeds `TokenResponse` schema (access token plus the user's UUID). -/
structure TokenResponse where
  access_token : String
  user_uuid : String
  deriving DecidableEq, Repr

/-- Environment of the account service: the relational user store
(`SQLAlchemyUserRepository`), the bcrypt verification primitive
(`pwd_context.verify plain hashed`), the JWT encoder
(`create_access_token`, keyed on the subject claim), and `uuid.UUID` string
parsing (`some` returns the canonical form `str(uuid.UUID(s))`). -/
structure AccountEnv where
  users : List User
  verify : String → String → Bool
  encode : String → String
  uuidParse : String → Option String

/-- Python's `str.lower()` (modelled character-wise; emails in this codebase
are ASCII). -/
def pyLower (s : String) : String := String.mk (s.data.map Char.toLower)

/-- Embeds `SQLAlchemyUserRepository.get_by_email`: the query lowercases the email
(`UserDB.email == email.lower()`). -/
def get_by_email (env : AccountEnv) (email : String) : Option User :=
  env.users.find? fun u => u.email == pyLower email

/-- Embeds `SQLAlchemyUserRepository.get_by_uuid`: a `ValueError` from
`uuid.UUID(user_uuid_str)` yields `None`; otherwise the row with that UUID. -/
def get_by_uuid (env : AccountEnv) (user_uuid_str : String) : Option User :=
  match env.uuidParse user_uuid_str with
  | none => none
  | some s => env.users.find? fun u => u.user_uuid == s

/-- Embeds `AccountApplicationService.login_user`: `InvalidCredentialsError` when no
user matches the email, when the password hash does not verify, or when the
user is inactive; otherwise a signed token embedding the user's UUID. -/
def login_user (env : AccountEnv) (email password : String) : Except AccountError TokenResponse :=
  match get_by_email env email with
  | none => .error .InvalidCredentials
  | some user =>
      if ¬ env.verify password user.hashed_password then .error .InvalidCredentials
      else if ¬ user.is_active then .error .InvalidCredentials
      else .ok { access_token := env.encode user.user_uuid, user_uuid := user.user_uuid }

/-- Embeds `AccountApplicationService.get_user_by_uuid_for_auth`: `None` for a
malformed UUID, an unknown UUID, or an inactive user; the active user
otherwise. -/
def get_user_by_uuid_for_auth (env : AccountEnv) (user_uuid_str : String) : Option User :=
  match env.uuidParse user_uuid_str with
  | none => none
  | some s =>
      match get_by_uuid env s with
      | some user => if user.is_active then some user else none
      | none => none

/-- Outcome of an HTTP handler: a success body with a status code, or an
`HTTPException` with a status code and detail string. -/
inductive HttpOutcome (α : Type) where
  | ok (code : Nat) (body : α)
  | httpError (code : Nat) (detail : String)
  deriving DecidableEq, Repr

/-- Embeds `login_for_access_token_endpoint` (`src/app/account/controller/routers.py`):
200 with the token on success, 401 "Incorrect email or password" on
`InvalidCredentialsError`, 500 on any other exception. -/
def login_for_access_token_endpoint (env : AccountEnv) (email password : String) :
    HttpOutcome TokenResponse :=
  match login_user env email password with
  | .ok t => .ok 200 t
  | .error .InvalidCredentials => .httpError 401 "Incorrect email or password"
  | .error _ => .httpError 500 "An error occurred during login."

/-! ## Authentication boundary (src/app/lib/security.py) -/

/-- Decoded JWT payload: the optional subject claim (`payload.get("sub")`). -/
structure JwtPayload where
  sub : Option String
  deriving DecidableEq, Repr

/-- Embeds `AuthenticatedUser` from `src/app/lib/security.py`: just the identifier
taken from the token's subject claim.  (The source stores the *string*
subject unchanged: `user_id_int = user_id_str` performs no conversion.) -/
structure AuthenticatedUser where
  id : String
  deriving DecidableEq, Repr

/-- Environment of the authentication boundary: `jwt.decode` with the
application's symmetric key — `some payload` exactly when the token's
signature verifies and it is unexpired, `none` when decoding raises
`JWTError`.  Note the environment carries no user store: the source
dependency has none. -/
structure AuthEnv where
  decode : String → Option JwtPayload

/-- Embeds `get_current_authenticated_user` (`src/app/lib/security.py`): 401 when the
token does not decode or has no subject claim; otherwise the request is
authenticated as the subject string.  The user store is never consulted. -/
def get_current_authenticated_user (env : AuthEnv) (token : String) :
    Except String AuthenticatedUser :=
  match env.decode token with
  | none => .error "Could not validate credentials"
  | some payload =>
      match payload.sub with
      | none => .error "Could not validate credentials"
      | some user_id_str => .ok { id := user_id_str }

/-! ### Account fixtures -/

/-- Concrete inactive user. -/
def cUserInactive : User :=
  { id := some 1, user_uuid := "11111111-1111-1111-1111-111111111111",
    email := "a@x.com", hashed_password := "hash-a", is_active := false }

/-- Concrete active user. -/
def cUserActive : User :=
  { id := some 2, user_uuid := "22222222-2222-2222-2222-222222222222",
    email := "b@x.com", hashed_password := "hash-b", is_active := true }

/-- Concrete account environment: the password verifies exactly when the
plain text is `"pw-" ++` the stored hash's suffix; UUID parsing accepts the
two fixture UUIDs. -/
def cAccountEnv : AccountEnv :=
  { users := [cUserInactive, cUserActive],
    verify := fun plain hashed => (plain == "pw-a" && hashed == "hash-a")
      || (plain == "pw-b" && hashed == "hash-b"),
    encode := fun s => "token-for-" ++ s,
    uuidParse := fun s =>
      if s == "11111111-1111-1111-1111-111111111111"
          || s == "22222222-2222-2222-2222-222222222222" then some s else none }

/-- Concrete authentication environment: one token decodes to a payload whose
subject is the inactive user's UUID. -/
def cAuthEnv : AuthEnv :=
  { decode := fun t =>
      if t == "token-inactive" then
        some { sub := some "11111111-1111-1111-1111-111111111111" }
      else none }

/-- C9: an inactive user supplying the correct password and any user supplying
a wrong password produce literally the same outcome: `InvalidCredentialsError`
at the service, mapped to the same 401 response with the same detail, with no
distinguishing signal. -/
theorem login_inactive_indistinguishable (env : AccountEnv)
    (e1 pw1 e2 pw2 : String) (u1 u2 : User)
    (h1 : get_by_email env e1 = some u1)
    (hverify1 : env.verify pw1 u1.hashed_password = true)
    (hinactive : u1.is_active = false)
    (h2 : get_by_email env e2 = some u2)
    (hverify2 : env.verify pw2 u2.hashed_password = false) :
    login_user env e1 pw1 = .error .InvalidCredentials
    ∧ login_user env e1 pw1 = login_user env e2 pw2
    ∧ login_for_access_token_endpoint env e1 pw1 = login_for_access_token_endpoint env e2 pw2
    ∧ login_for_access_token_endpoint env e1 pw1
        = .httpError 401 "Incorrect email or password" := by
  have l1 : login_user env e1 pw1 = .error .InvalidCredentials := by
    simp [login_user, h1, hverify1, hinactive]
  have l2 : login_user env e2 pw2 = .error .InvalidCredentials := by
    simp [login_user, h2, hverify2]
  refine ⟨l1, by rw [l1, l2], ?_, ?_⟩ <;>
    simp [login_for_access_token_endpoint, l1, l2]

/-- Witness for `login_inactive_indistinguishable` at the concrete fixtures. -/
theorem login_inactive_indistinguishable_witness :
    (get_by_email cAccountEnv "a@x.com" = some cUserInactive
      ∧ cAccountEnv.verify "pw-a" cUserInactive.hashed_password = true
      ∧ cUserInactive.is_active = false
      ∧ get_by_email cAccountEnv "b@x.com" = some cUserActive
      ∧ cAccountEnv.verify "wrong-password" cUserActive.hashed_password = false)
    ∧ (login_user cAccountEnv "a@x.com" "pw-a" = .error .InvalidCredentials
      ∧ login_user cAccountEnv "a@x.com" "pw-a" = login_user cAccountEnv "b@x.com" "wrong-password"
      ∧ login_for_access_token_endpoint cAccountEnv "a@x.com" "pw-a"
          = login_for_access_token_endpoint cAccountEnv "b@x.com" "wrong-password"
      ∧ login_for_access_token_endpoint cAccountEnv "a@x.com" "pw-a"
          = .httpError 401 "Incorrect email or password") :=
  ⟨⟨by decide, by decide, by decide, by decide, by decide⟩,
    login_inactive_indistinguishable cAccountEnv "a@x.com" "pw-a" "b@x.com" "wrong-password"
      cUserInactive cUserActive (by decide) (by decide) (by decide) (by decide) (by decide)⟩

/-- C4 counterexample: in a store holding an inactive user, a token whose
decoded subject is that user's UUID still authenticates the request — the
route dependency `get_current_authenticated_user` never consults the user
store, so the claim "a bearer token carrying that user's UUID does not
authenticate the request" is false. -/
theorem inactive_token_authenticates_counterexample :
    cUserInactive.is_active = false
    ∧ get_by_uuid cAccountEnv "11111111-1111-1111-1111-111111111111" = some cUserInactive
    ∧ cAuthEnv.decode "token-inactive"
        = some { sub := some "11111111-1111-1111-1111-111111111111" }
    ∧ get_current_authenticated_user cAuthEnv "token-inactive"
        = .ok { id := "11111111-1111-1111-1111-111111111111" } := by
  refine ⟨by decide, by decide, by decide, ?_⟩
  rfl

/-- C4 amended: login rejects inactive users with `InvalidCredentialsError`,
and `get_user_by_uuid_for_auth` never returns an inactive user; but the
bearer-token dependency protecting the routes authenticates any token that
decodes with a subject claim, without consulting the user store, so an
inactive user's token still authenticates requests. -/
theorem auth_inactive_user_amended :
    (∀ (env : AccountEnv) (e pw : String) (u : User),
        get_by_email env e = some u → env.verify pw u.hashed_password = true →
        u.is_active = false → login_user env e pw = .error .InvalidCredentials)
    ∧ (∀ (env : AccountEnv) (s : String) (u : User),
        get_user_by_uuid_for_auth env s = some u → u.is_active = true)
    ∧ (∀ (env : AuthEnv) (token s : String) (p : JwtPayload),
        env.decode token = some p → p.sub = some s →
        get_current_authenticated_user env token = .ok { id := s }) := by
  refine ⟨?_, ?_, ?_⟩
  · intro env e pw u h hv hi
    simp [login_user, h, hv, hi]
  · intro env s u h
    rcases hp : env.uuidParse s with _ | c
    · simp [get_user_by_uuid_for_auth, hp] at h
    · rcases hg : get_by_uuid env c with _ | v
      · simp [get_user_by_uuid_for_auth, hp, hg] at h
      · simp only [get_user_by_uuid_for_auth, hp, hg] at h
        by_cases ha : v.is_active = true
        · rw [if_pos ha] at h
          cases h
          exact ha
        · rw [if_neg ha] at h
          exact absurd h (by simp)
  · intro env token s p hd hs
    simp [get_current_authenticated_user, hd, hs]

/-- Witness for `auth_inactive_user_amended` at the concrete fixtures. -/
theorem auth_inactive_user_amended_witness :
    login_user cAccountEnv "a@x.com" "pw-a" = .error .InvalidCredentials
    ∧ get_current_authenticated_user cAuthEnv "token-inactive"
        = .ok { id := "11111111-1111-1111-1111-111111111111" } :=
  ⟨auth_inactive_user_amended.1 cAccountEnv "a@x.com" "pw-a" cUserInactive
      (by decide) (by decide) (by decide),
    auth_inactive_user_amended.2.2 cAuthEnv "token-inactive"
      "11111111-1111-1111-1111-111111111111"
      { sub := some "11111111-1111-1111-1111-111111111111" } (by decide) (by decide)⟩

/-! ## Python exceptions of the PDF and chat modules

`PDFNotFoundError`, `PDFAlreadyParsingError` and `InvalidPDFFileTypeError` in
`src/app/pdf/domain/exceptions.py` have `pass` bodies (their `__init__` is
commented out), so they inherit `BaseException.__init__`, which rejects
keyword arguments.  Every raise site of these classes in the services and the
Mongo repository passes a keyword argument (`PDFNotFoundError(pdf_id=...)`,
`PDFAlreadyParsingError(pdf_id=...)`), so the construction itself raises
`TypeError`, and that `TypeError` is what propagates out of the raise
statement.  `PDFNotParsedError` and `PDFNotParsedForChatError` do define an
`__init__` accepting `pdf_id`, so they are raised as intended. -/

/-- Exception values that can propagate out of the embedded PDF/chat
operations. -/
inductive PyExc where
  /-- Embeds `TypeError`, as raised by CPython when a `BaseException` subclass
  without its own `__init__` receives keyword arguments. -/
  | typeError (msg : String)
  /-- a correctly constructed `PDFNotFoundError` — not constructible from any
  raise site in the source, all of which pass keyword arguments. -/
  | pdfNotFound
  /-- a correctly constructed `PDFAlreadyParsingError` — likewise not
  constructible from the raise sites in the source. -/
  | pdfAlreadyParsing
  /-- Embeds `PDFNotParsedError(pdf_id)` (this class has a real `__init__`). -/
  | pdfNotParsed (pdf_id : String)
  /-- Embeds `PDFDomainError(msg)` (positional argument, accepted). -/
  | pdfDomain (msg : String)
  /-- Embeds `NoPDFSelectedForChatError()`. -/
  | noPDFSelectedForChat
  /-- Embeds `PDFNotParsedForChatError(pdf_id=...)` (this class has a real
  `__init__`). -/
  | pdfNotParsedForChat (pdf_id : String)
  /-- Embeds `ChatDomainError(msg)` (positional argument, accepted). -/
  | chatDomain (msg : String)
  deriving DecidableEq, Repr

/-- The `TypeError` produced by `Cls(kw=...)` for an exception class that
inherits `BaseException.__init__` (CPython: `_PyArg_NoKeywords`). -/
def kwTypeError (clsName : String) : PyExc :=
  .typeError (clsName ++ "() takes no keyword arguments")

/-! ## Mongo PDF repository: writes -/

/-- Mongo `update_one`: update the first element satisfying `p` with `f`;
`none` when no element matches (`matched_count == 0`). -/
def updateFirst (p : α → Bool) (f : α → α) : List α → Option (List α)
  | [] => none
  | a :: l => if p a then some (f a :: l) else (updateFirst p f l).map (a :: ·)

/-- The `$set` document of `update_pdf_meta`: the mutable metadata fields of
`pdf_doc` written over a stored document `x`. -/
def setMetaFields (pdf_doc : PDFDocument) (x : PDFDocument) : PDFDocument :=
  { x with parse_status := pdf_doc.parse_status,
           parse_error_message := pdf_doc.parse_error_message,
           is_selected_for_chat := pdf_doc.is_selected_for_chat,
           parsed_text_id := pdf_doc.parsed_text_id,
           upload_date := pdf_doc.upload_date }

/-- Embeds `MongoPDFRepository.update_pdf_meta`: an invalid ObjectId or no matching
`{_id, user_id}` document executes `raise PDFNotFoundError(pdf_id=...)`,
which (per the note on `PyExc`) actually raises `TypeError`; otherwise the
mutable fields of the matched document are `$set`. -/
def update_pdf_meta (coll : List PDFDocument) (pdf_doc : PDFDocument) :
    Except PyExc (List PDFDocument) :=
  if isValidObjectId pdf_doc.id then
    match updateFirst (fun x => x.id == pdf_doc.id && x.user_id == pdf_doc.user_id)
        (setMetaFields pdf_doc) coll with
    | some coll2 => .ok coll2
    | none => .error (kwTypeError "PDFNotFoundError")
  else .error (kwTypeError "PDFNotFoundError")

/-- The per-document effect of the `update_many` filter
`{"user_id": u, "is_selected_for_chat": True, "_id": {"$ne": target}}` with
`$set {"is_selected_for_chat": False}` in `set_pdf_selected_for_chat`. -/
def deselOther (user_id : Nat) (pid : String) (d : PDFDocument) : PDFDocument :=
  if d.user_id == user_id && d.is_selected_for_chat && d.id != pid then
    { d with is_selected_for_chat := false }
  else d

/-- Embeds `MongoPDFRepository.set_pdf_selected_for_chat`: an invalid ObjectId
returns `False`; otherwise `update_many` (`deselOther`) deselects every other
selected document of the user, then `update_one` selects the target, and the
call reports whether the target matched. -/
def set_pdf_selected_for_chat (coll : List PDFDocument) (user_id : Nat)
    (pdf_id_to_select : String) : Bool × List PDFDocument :=
  if isValidObjectId pdf_id_to_select then
    let deselected := coll.map (deselOther user_id pdf_id_to_select)
    match updateFirst (fun d => d.id == pdf_id_to_select && d.user_id == user_id)
        (fun d => { d with is_selected_for_chat := true }) deselected with
    | some coll2 => (true, coll2)
    | none => (false, deselected)
  else (false, coll)

/-! ## PDF service (src/app/pdf/application/services.py) -/

/-- Embeds `PDFParseResponse` schema. -/
structure PDFParseResponse where
  pdf_id : String
  status : PDFParseStatus
  message : String
  deriving DecidableEq, Repr

/-- Embeds `PDFSelectResponse` schema. -/
structure PDFSelectResponse where
  pdf_id : String
  message : String
  is_selected_for_chat : Bool
  deriving DecidableEq, Repr

/-- Embeds `PDFApplicationService.request_pdf_parsing`.  The result is the service
outcome, the updated metadata collection, and the `(pdf_id, user_id)` parse
tasks deferred during the call. -/
def request_pdf_parsing (coll : List PDFDocument) (current_user_id : Nat) (pdf_id : String) :
    Except PyExc PDFParseResponse × List PDFDocument × List (String × Nat) :=
  match get_pdf_meta_by_id coll pdf_id current_user_id with
  | none => (.error (kwTypeError "PDFNotFoundError"), coll, [])
  | some pdf_doc =>
      if pdf_doc.parse_status == PDFParseStatus.PARSING
          || pdf_doc.parse_status == PDFParseStatus.PARSED_SUCCESS then
        (.error (kwTypeError "PDFAlreadyParsingError"), coll, [])
      else
        let marked := pdf_doc.mark_as_parsing
        match update_pdf_meta coll marked with
        | .error e => (.error e, coll, [])
        | .ok coll2 =>
            (.ok { pdf_id := marked.id, status := marked.parse_status,
                   message := "PDF parsing initiated." }, coll2, [(marked.id, current_user_id)])

/-- Embeds `request_pdf_parsing` route handler (`src/app/pdf/controller/routers.py`):
202 on success; 404 only for a genuine `PDFNotFoundError` instance; 500 for
every other exception — including the `TypeError`s the service actually
raises, and any `PDFAlreadyParsingError`, for which the handler has no
branch at all. -/
def request_pdf_parsing_endpoint (coll : List PDFDocument) (current_user_id : Nat)
    (pdf_id : String) : HttpOutcome PDFParseResponse :=
  match (request_pdf_parsing coll current_user_id pdf_id).1 with
  | .ok r => .ok 202 r
  | .error .pdfNotFound => .httpError 404 "PDF not found"
  | .error _ => .httpError 500 "An error occurred while requesting PDF parsing."

/-- Embeds `PDFApplicationService.select_pdf_for_chat`: result plus the updated
metadata collection. -/
def select_pdf_for_chat (coll : List PDFDocument) (current_user_id : Nat) (pdf_id : String) :
    Except PyExc PDFSelectResponse × List PDFDocument :=
  match get_pdf_meta_by_id coll pdf_id current_user_id with
  | none => (.error (kwTypeError "PDFNotFoundError"), coll)
  | some pdf_doc =>
      match pdf_doc.select_for_chat with
      | .error pid => (.error (.pdfNotParsed pid), coll)
      | .ok _ =>
          match set_pdf_selected_for_chat coll current_user_id pdf_doc.id with
          | (true, coll2) =>
              (.ok { pdf_id := pdf_doc.id, message := "PDF selected successfully for chat.",
                     is_selected_for_chat := true }, coll2)
          | (false, coll2) =>
              (.error (.pdfDomain
                "Failed to select PDF for chat due to an unexpected repository issue."), coll2)

/-! ## Helper step functions for selection reasoning -/

/-- The per-document effect of a completed `set_pdf_selected_for_chat` call
targeting `pid` for `user_id`, when the target is present and ids are
duplicate-free: the target becomes selected, every other selected document
of the user becomes deselected, everything else is untouched. -/
def selApply (user_id : Nat) (pid : String) (d : PDFDocument) : PDFDocument :=
  if d.id == pid && d.user_id == user_id then { d with is_selected_for_chat := true }
  else if d.user_id == user_id && d.is_selected_for_chat && d.id != pid then
    { d with is_selected_for_chat := false }
  else d

/-- Number of documents of user `u` flagged as selected for chat. -/
def userSelectedCount (coll : List PDFDocument) (u : Nat) : Nat :=
  coll.countP fun d => d.user_id == u && d.is_selected_for_chat

/-- A sequence of `select_pdf_for_chat` calls, each threading the collection
state (outcomes are discarded; failed calls leave their state as defined by
the service). -/
def runSelects (coll : List PDFDocument) (ops : List (Nat × String)) : List PDFDocument :=
  ops.foldl (fun st op => (select_pdf_for_chat st op.1 op.2).2) coll

/-! ## PDF fixtures -/

/-- Parsed document A of user 7. -/
def cDocA : PDFDocument :=
  { id := "aaaaaaaaaaaaaaaaaaaaaaaa", user_id := 7, gridfs_file_id := "g1",
    original_filename := "a.pdf", upload_date := 1, parse_status := .PARSED_SUCCESS,
    parse_error_message := none, is_selected_for_chat := false, parsed_text_id := some "t1" }

/-- Parsed document B of user 7. -/
def cDocB : PDFDocument :=
  { id := "bbbbbbbbbbbbbbbbbbbbbbbb", user_id := 7, gridfs_file_id := "g2",
    original_filename := "b.pdf", upload_date := 2, parse_status := .PARSED_SUCCESS,
    parse_error_message := none, is_selected_for_chat := false, parsed_text_id := some "t2" }

/-- A document of user 7 whose parse is in flight. -/
def cDocParsing : PDFDocument :=
  { id := "cccccccccccccccccccccccc", user_id := 7, gridfs_file_id := "g3",
    original_filename := "c.pdf", upload_date := 3, parse_status := .PARSING,
    parse_error_message := none, is_selected_for_chat := false, parsed_text_id := none }

/-- An unparsed document of user 7. -/
def cDocU : PDFDocument :=
  { id := "dddddddddddddddddddddddd", user_id := 7, gridfs_file_id := "g4",
    original_filename := "d.pdf", upload_date := 4, parse_status := .UNPARSED,
    parse_error_message := none, is_selected_for_chat := false, parsed_text_id := none }

/-- Collection with the two parsed documents of user 7. -/
def cCollAB : List PDFDocument := [cDocA, cDocB]

/-! ## Background parse task (src/app/pdf/controller/dependencies.py,
`dummy_defer_parse_task`) -/

/-- Embeds `str(e)` of an embedded Python exception, as interpolated into error
messages.  Only `TypeError` / `PDFDomainError` / `ChatDomainError` messages
are ever interpolated on the reachable paths; the remaining classes' message
text is not needed by any claim. -/
def PyExc.pyMessage : PyExc → String
  | .typeError m => m
  | .pdfDomain m => m
  | .chatDomain m => m
  | _ => ""

/-- The loop body of the page-extraction loop: the page's extracted text, or
the inline placeholder string when `page.extract_text()` raises. -/
def extractedPageText (page_num : Nat) (page : Except String String) : String :=
  match page with
  | .ok t => t
  | .error _ => "[Error extracting page " ++ toString page_num ++ "]"

/-- A page outcome whose successful text is nonempty (failed pages always
yield the nonempty placeholder). -/
def pageNonempty : Except String String → Bool
  | .ok t => !(t == "")
  | .error _ => true

/-- External effects of one run of the background parse task: whether the
GridFS download stream exists, whether `read()`/`PdfReader` raise, the
per-page `extract_text()` outcomes, the ObjectId Mongo assigns to the
inserted parsed-text document, and whether `insert_one` raises. -/
structure ParseTaskEnv where
  binaryPresent : Bool
  readOutcome : Except String Unit
  pages : List (Except String String)
  newTextId : String
  saveFails : Option String

/-- The `except Exception` handler of the parse task: mark the document
PARSED_FAILURE with a message derived from the exception and try to persist
that, swallowing a failure of the persist itself. -/
def parseTaskGenericHandler (coll : List PDFDocument) (pdf_doc : PDFDocument)
    (pdf_id : String) (excMsg : String) : List PDFDocument :=
  let failed := pdf_doc.mark_parse_failure
    ("Error during PDF parsing task for PDF ID " ++ pdf_id ++ ": " ++ excMsg)
  match update_pdf_meta coll failed with
  | .ok coll2 => coll2
  | .error _ => coll

/-- Embeds `dummy_defer_parse_task`: fetch metadata (silently return when absent),
fetch the binary (absence marks PARSED_FAILURE with a binary-not-found
message), extract text page by page with inline placeholders for failing
pages, join the nonempty parts with single spaces (`" ".join(filter(None,
parts))`), persist the text as a new record, and mark the document
PARSED_SUCCESS with a reference to it; any exception in the flow is routed to
`parseTaskGenericHandler`.  The state is the metadata collection plus the
`parsed_pdf_texts_collection` modelled as `(pdf_metadata_id, text_content)`
pairs. -/
def dummy_defer_parse_task (coll : List PDFDocument) (parsedTexts : List (String × String))
    (env : ParseTaskEnv) (pdf_id : String) (user_id : Nat) :
    List PDFDocument × List (String × String) :=
  match get_pdf_meta_by_id coll pdf_id user_id with
  | none => (coll, parsedTexts)
  | some pdf_doc =>
      if env.binaryPresent = false then
        let failed := pdf_doc.mark_parse_failure
          ("PDF binary not found for GridFS ID: " ++ pdf_doc.gridfs_file_id)
        match update_pdf_meta coll failed with
        | .ok coll2 => (coll2, parsedTexts)
        | .error e => (parseTaskGenericHandler coll pdf_doc pdf_id e.pyMessage, parsedTexts)
      else
        match env.readOutcome with
        | .error msg => (parseTaskGenericHandler coll pdf_doc pdf_id msg, parsedTexts)
        | .ok _ =>
            let extracted_text_parts :=
              env.pages.enum.map fun pr => extractedPageText pr.1 pr.2
            let full_extracted_text :=
              String.intercalate " " (extracted_text_parts.filter fun s => !(s == ""))
            match env.saveFails with
            | some msg => (parseTaskGenericHandler coll pdf_doc pdf_id msg, parsedTexts)
            | none =>
                let parsedTexts2 := parsedTexts ++ [(pdf_doc.id, full_extracted_text)]
                match update_pdf_meta coll (pdf_doc.mark_parse_success env.newTextId) with
                | .ok coll2 => (coll2, parsedTexts2)
                | .error e =>
                    (parseTaskGenericHandler coll pdf_doc pdf_id e.pyMessage, parsedTexts2)

/-! ## Chat service (src/app/chat/application/services.py) -/

/-- Modelled from the spec: `IPDFRepository.get_selected_pdf_for_user` —
"Retrieves the PDF document currently selected for chat by the user."  The
interface in `pdf_repository.py` declares it and `submit_user_message` calls
it, but `MongoPDFRepository` contains no implementation (only the Protocol
body `...` and the in-memory test double in
`test_chat_service_integration.py`, which returns the first stored document
of the user with `is_selected_for_chat` set — the behaviour modelled here). -/
def get_selected_pdf_for_user (coll : List PDFDocument) (user_id : Nat) :
    Option PDFDocument :=
  coll.find? fun d => d.user_id == user_id && d.is_selected_for_chat

/-- State threaded through the chat service: the PDF metadata collection, the
`chat_logs` table, the next autoincrement turn id, and the `(turn_id,
user_id)` LLM tasks deferred so far. -/
structure ChatState where
  pdfColl : List PDFDocument
  chatLogs : List ChatMessageTurn
  nextTurnId : Nat
  deferredLLM : List (Nat × Nat)
  deriving Repr

/-- Embeds `ChatApplicationService.submit_user_message`: fails with
`NoPDFSelectedForChatError` when the user has no selected document, with
`PDFNotParsedForChatError` when the selected document is not PARSED_SUCCESS;
otherwise persists a PENDING turn (`create_chat_turn` stores the row with
status PENDING and a fresh id), raises `ChatDomainError` if the persisted
turn has no id (unreachable here: the store always assigns one), and defers
the LLM task for `(turn_id, user_id)`. -/
def submit_user_message (st : ChatState) (current_user_id : Nat) (message : String)
    (now : Nat) : Except PyExc ChatMessageTurn × ChatState :=
  match get_selected_pdf_for_user st.pdfColl current_user_id with
  | none => (.error .noPDFSelectedForChat, st)
  | some selected_pdf =>
      if selected_pdf.parse_status ≠ PDFParseStatus.PARSED_SUCCESS then
        (.error (.pdfNotParsedForChat selected_pdf.id), st)
      else
        let chat_turn_domain : ChatMessageTurn :=
          { id := none, user_id := current_user_id, pdf_document_id := selected_pdf.id,
            pdf_original_filename := selected_pdf.original_filename,
            user_message_content := message, user_message_timestamp := now,
            llm_response_content := none, llm_response_status := .PENDING,
            llm_response_timestamp := none, retry_attempts := 0 }
        let persisted := { chat_turn_domain with
                           id := some st.nextTurnId,
                           llm_response_status := LLMResponseStatus.PENDING }
        let st2 := { st with
                     chatLogs := st.chatLogs ++ [persisted],
                     nextTurnId := st.nextTurnId + 1 }
        match persisted.id with
        | none => (.error (.chatDomain
            "Failed to persist chat message properly before LLM task."), st2)
        | some tid =>
            (.ok persisted,
              { st2 with deferredLLM := st2.deferredLLM ++ [(tid, current_user_id)] })

/-! ## Background LLM task (src/app/chat/controllers/dependencies.py,
`_defer_llm_task`)

The task's failure branches assign `LLMResponseStatus.FAILED`, a member the
enum does not have; evaluating that attribute raises
`AttributeError("FAILED")` (CPython's enum `__getattr__` raises
`AttributeError(name)`).  Inside the inner `try` the `AttributeError` is
caught by `except Exception`, whose handler re-evaluates
`LLMResponseStatus.FAILED` and raises again; either way the
`AttributeError` reaches the outermost handler, which records
FAILED_RETRIES_EXHAUSTED with its generic message.  None of the categorized
error messages the branches try to store is ever written. -/

/-- Embeds `str` of the `AttributeError` raised by `LLMResponseStatus.FAILED`. -/
def attributeErrorMsg : String := "FAILED"

/-- Result of `subprocess.run(curl_command, capture_output=True, text=True,
check=False)`. -/
structure CurlResult where
  returncode : Int
  stdout : String
  stderr : String
  deriving DecidableEq, Repr

/-- Interpretation of the response body by `json.loads` plus the candidate
extraction chain: the body fails to parse, yields a truthy
`candidates[0].content.parts[0].text`, carries an `error` object, or parses
but matches neither shape. -/
inductive GeminiBodyParse where
  | invalidJson (msg : String)
  | textCandidate (text : String)
  | apiError (msg : String)
  | malformed
  deriving DecidableEq, Repr

/-- External effects of one run of the LLM task: the parsed-text lookup for
the turn's document, the `curl` subprocess (`.error` = `subprocess.run`
itself raised), and the JSON interpretation of response bodies. -/
structure LLMTaskEnv where
  parsed_text : Option String
  curl : Except String CurlResult
  body_parse : String → GeminiBodyParse

/-- Python `str.strip()` on a character list: whitespace removed from both
ends. -/
def pyStripChars (cs : List Char) : List Char :=
  ((cs.dropWhile Char.isWhitespace).reverse.dropWhile Char.isWhitespace).reverse

/-- Python `str.strip()`. -/
def pyStrip (s : String) : String := String.mk (pyStripChars s.data)

/-- Decimal digit run to a number; `none` when empty or non-digit. -/
def digitsToNat? (cs : List Char) : Option Nat :=
  if cs ≠ [] ∧ cs.all Char.isDigit then
    some (cs.foldl (fun n c => 10 * n + (c.toNat - 48)) 0)
  else none

/-- Python `int(s)`: optional sign and decimal digits, surrounding whitespace
allowed; `none` when `int` raises `ValueError`. -/
def pyInt? (s : String) : Option Int :=
  match pyStripChars s.data with
  | '-' :: rest => (digitsToNat? rest).map fun n => -(n : Int)
  | '+' :: rest => (digitsToNat? rest).map fun n => (n : Int)
  | t => (digitsToNat? t).map fun n => (n : Int)

/-- The stdout splitting of `_defer_llm_task`: with `-w "%\x7bhttp_code\x7d"`
appended, the last three characters are taken as the status code (`-1` when
they do not parse as an int) and the rest, stripped, as the body; short
output yields code `-1` and the whole stripped output as body. -/
def splitHttpCode (output : String) : String × Int :=
  if output.length ≥ 3 then
    let code_str := String.mk (output.data.drop (output.length - 3))
    let body := pyStrip (String.mk (output.data.take (output.length - 3)))
    match pyInt? code_str with
    | some n => (body, n)
    | none => (body, -1)
  else (pyStrip output, -1)

/-- Outcome of the inner `try` of `_defer_llm_task`: the generated text, or
the exception that escapes the inner region.  Every failure branch escapes
with `AttributeError("FAILED")`: the branch bodies (and the bodies of the
inner `except` handlers) all evaluate the nonexistent
`LLMResponseStatus.FAILED` before writing anything. -/
def innerTryOutcome (env : LLMTaskEnv) : Except String String :=
  match env.curl with
  | .error _ => .error attributeErrorMsg
  | .ok process =>
      let split := splitHttpCode process.stdout
      if process.returncode ≠ 0 ∨ ¬(200 ≤ split.2 ∧ split.2 < 300) then
        .error attributeErrorMsg
      else
        match env.body_parse split.1 with
        | .invalidJson _ => .error attributeErrorMsg
        | .textCandidate t => .ok t
        | .apiError _ => .error attributeErrorMsg
        | .malformed => .error attributeErrorMsg

/-- The outermost `except Exception` handler of `_defer_llm_task`: the turn
is written back with status FAILED_RETRIES_EXHAUSTED and the generic
"unexpected error" message (the response timestamp is not touched). -/
def outerHandlerWrite (turn : ChatMessageTurn) (chat_turn_id : Nat) (excMsg : String) :
    ChatMessageTurn :=
  { turn with
      llm_response_status := .FAILED_RETRIES_EXHAUSTED,
      llm_response_content := some
        ("LLM Error: An unexpected error occurred during LLM task for chat turn "
          ++ toString chat_turn_id ++ ": " ++ excMsg) }

/-- Embeds `_defer_llm_task` on the turn the lookup returned, as the sequence of
turn states passed to `update_llm_response_in_turn` (the task performs at
most one write).  A missing turn is logged and nothing is written; a missing
parsed text evaluates `LLMResponseStatus.FAILED` — raising `AttributeError`
before any assignment — and the outer handler records the generic failure;
the inner `try` either yields the generated text (written back as
COMPLETED_SUCCESS with a response timestamp) or escapes with
`AttributeError`, again recorded by the outer handler. -/
def defer_llm_task (chat_turn : Option ChatMessageTurn) (env : LLMTaskEnv)
    (chat_turn_id : Nat) (now : Nat) : List ChatMessageTurn :=
  match chat_turn with
  | none => []
  | some turn =>
      match env.parsed_text with
      | none => [outerHandlerWrite turn chat_turn_id attributeErrorMsg]
      | some _ =>
          match innerTryOutcome env with
          | .error msg => [outerHandlerWrite turn chat_turn_id msg]
          | .ok generated_text =>
              [{ turn with llm_response_content := some generated_text,
                           llm_response_status := .COMPLETED_SUCCESS,
                           llm_response_timestamp := some now }]

/-! ## Chat fixtures -/

/-- A PENDING chat turn as the background task would read it. -/
def cTurnPending : ChatMessageTurn :=
  { id := some 1, user_id := 7, pdf_document_id := "aaaaaaaaaaaaaaaaaaaaaaaa",
    pdf_original_filename := "a.pdf", user_message_content := "what is this about",
    user_message_timestamp := 3, llm_response_content := none,
    llm_response_status := .PENDING, llm_response_timestamp := none, retry_attempts := 0 }

/-- LLM-task environment for a fully successful run: parsed text present,
`curl` exits 0 with HTTP 200, and the body yields a text candidate. -/
def cEnvSuccess : LLMTaskEnv :=
  { parsed_text := some "document text",
    curl := .ok { returncode := 0, stdout := "body200", stderr := "" },
    body_parse := fun _ => .textCandidate "Hello from the model" }

/-- LLM-task environment where the parsed text is missing. -/
def cEnvNoText : LLMTaskEnv :=
  { parsed_text := none,
    curl := .ok { returncode := 0, stdout := "body200", stderr := "" },
    body_parse := fun _ => .textCandidate "Hello from the model" }

/-- Chat state in which user 7 has documents but none selected. -/
def cChatStateNoSel : ChatState :=
  { pdfColl := cCollAB, chatLogs := [], nextTurnId := 1, deferredLLM := [] }

/-- Parse-task environment with one failing page between two successful
ones. -/
def cParseEnv : ParseTaskEnv :=
  { binaryPresent := true, readOutcome := .ok (),
    pages := [.ok "hello", .error "boom", .ok "world"],
    newTextId := "ffffffffffffffffffffffff", saveFails := none }

/-! ## Pagination theorems -/

/-! ### Pagination lemmas -/

theorem insertDescBy_length (key : α → Nat) (a : α) (l : List α) :
    (insertDescBy key a l).length = l.length + 1 := by
  induction l with
  | nil => rfl
  | cons b l ih =>
      simp only [insertDescBy]
      split <;> simp [ih]

theorem sortDescBy_length (key : α → Nat) (l : List α) :
    (sortDescBy key l).length = l.length := by
  induction l with
  | nil => rfl
  | cons a l ih => simp [sortDescBy, insertDescBy_length, ih]

/-- The guarded `(total + size - 1) / size if total > 0 else 0` of the source
is exactly ceiling division. -/
theorem guarded_div_eq_ceilDiv (total size : Nat) :
    (if total > 0 then (total + size - 1) / size else 0) = total ⌈/⌉ size := by
  rcases Nat.eq_zero_or_pos total with h | h
  · subst h
    simp
  · simp [h, Nat.ceilDiv_eq_add_pred_div]

theorem list_pdfs_data_length (coll : List PDFDocument) (uid page size : Nat) :
    (list_pdfs_for_user coll uid page size).data.length
      = min size (count_all_pdf_meta_for_user coll uid - (page - 1) * size) := by
  simp [list_pdfs_for_user, get_all_pdf_meta_for_user, count_all_pdf_meta_for_user,
    sortDescBy_length]

theorem chat_history_data_length (table : List ChatMessageTurn) (uid page size : Nat) :
    (get_chat_history table uid page size).data.length
      = min size (count_chat_history_for_user table uid - (page - 1) * size) := by
  simp [get_chat_history, get_chat_history_for_user, count_chat_history_for_user,
    sortDescBy_length]

/-- C8: for every total item count and page size ≥ 1, both the PDF listing and
the chat history computation return `total_pages = ⌈total/size⌉` (`⌈/⌉` is
ceiling division on `ℕ`), `0` when the total is `0`, and slice the data with
`skip = (page-1)*size`, `limit = size` (so a page holds
`min size (total - (page-1)*size)` items); in particular for 25 items and
size 10, pages 1 and 2 hold 10 items, page 3 holds 5, page 4 holds 0, and
`total_pages = 3` in all cases. -/
theorem pagination_ceil_and_slices (coll : List PDFDocument) (table : List ChatMessageTurn)
    (uid page size : Nat) (hsize : 1 ≤ size) (hpage : 1 ≤ page) :
    ((list_pdfs_for_user coll uid page size).total_pages
        = count_all_pdf_meta_for_user coll uid ⌈/⌉ size
      ∧ (count_all_pdf_meta_for_user coll uid = 0 →
          (list_pdfs_for_user coll uid page size).total_pages = 0)
      ∧ (list_pdfs_for_user coll uid page size).data.length
          = min size (count_all_pdf_meta_for_user coll uid - (page - 1) * size))
    ∧ ((get_chat_history table uid page size).total_pages
        = count_chat_history_for_user table uid ⌈/⌉ size
      ∧ (count_chat_history_for_user table uid = 0 →
          (get_chat_history table uid page size).total_pages = 0)
      ∧ (get_chat_history table uid page size).data.length
          = min size (count_chat_history_for_user table uid - (page - 1) * size))
    ∧ ((∀ p ∈ [1, 2, 3, 4], (list_pdfs_for_user pdfColl25 1 p 10).total_pages = 3
          ∧ (get_chat_history chatTable25 1 p 10).total_pages = 3)
      ∧ (list_pdfs_for_user pdfColl25 1 1 10).data.length = 10
      ∧ (list_pdfs_for_user pdfColl25 1 2 10).data.length = 10
      ∧ (list_pdfs_for_user pdfColl25 1 3 10).data.length = 5
      ∧ (list_pdfs_for_user pdfColl25 1 4 10).data.length = 0
      ∧ (get_chat_history chatTable25 1 1 10).data.length = 10
      ∧ (get_chat_history chatTable25 1 2 10).data.length = 10
      ∧ (get_chat_history chatTable25 1 3 10).data.length = 5
      ∧ (get_chat_history chatTable25 1 4 10).data.length = 0) := by
  refine ⟨⟨?_, ?_, list_pdfs_data_length coll uid page size⟩,
    ⟨?_, ?_, chat_history_data_length table uid page size⟩, ?_, ?_⟩
  · simpa [list_pdfs_for_user] using
      guarded_div_eq_ceilDiv (count_all_pdf_meta_for_user coll uid) size
  · intro h
    simp [list_pdfs_for_user, h]
  · simpa [get_chat_history] using
      guarded_div_eq_ceilDiv (count_chat_history_for_user table uid) size
  · intro h
    simp [get_chat_history, h]
  · decide
  · refine ⟨?_, ?_, ?_, ?_, ?_, ?_, ?_, ?_⟩ <;> decide

/-- Witness for `pagination_ceil_and_slices` at a concrete input. -/
theorem pagination_ceil_and_slices_witness :
    (1 ≤ 10 ∧ 1 ≤ 3)
    ∧ ((list_pdfs_for_user pdfColl25 1 3 10).total_pages
          = count_all_pdf_meta_for_user pdfColl25 1 ⌈/⌉ 10
        ∧ (list_pdfs_for_user pdfColl25 1 3 10).data.length
          = min 10 (count_all_pdf_meta_for_user pdfColl25 1 - (3 - 1) * 10)) :=
  ⟨⟨by decide, by decide⟩,
    (pagination_ceil_and_slices pdfColl25 chatTable25 1 3 10 (by decide) (by decide)).1.1,
    (pagination_ceil_and_slices pdfColl25 chatTable25 1 3 10 (by decide) (by decide)).1.2.2⟩

/-! ## Selection: characterization of the repository write -/

theorem selApply_id (u : Nat) (pid : String) (d : PDFDocument) :
    (selApply u pid d).id = d.id := by
  unfold selApply; split_ifs <;> rfl

theorem selApply_user_id (u : Nat) (pid : String) (d : PDFDocument) :
    (selApply u pid d).user_id = d.user_id := by
  unfold selApply; split_ifs <;> rfl

theorem selApply_parse_status (u : Nat) (pid : String) (d : PDFDocument) :
    (selApply u pid d).parse_status = d.parse_status := by
  unfold selApply; split_ifs <;> rfl

theorem deselOther_id (u : Nat) (pid : String) (d : PDFDocument) :
    (deselOther u pid d).id = d.id := by
  unfold deselOther; split_ifs <;> rfl

theorem deselOther_user_id (u : Nat) (pid : String) (d : PDFDocument) :
    (deselOther u pid d).user_id = d.user_id := by
  unfold deselOther; split_ifs <;> rfl

theorem deselOther_eq_selApply_of_not_match (u : Nat) (pid : String) (d : PDFDocument)
    (h : ¬(d.id = pid ∧ d.user_id = u)) : deselOther u pid d = selApply u pid d := by
  unfold deselOther selApply
  by_cases hid : d.id = pid <;> by_cases huser : d.user_id = u <;> simp_all

theorem target_pred_false_of_not_match (u : Nat) (pid : String) (d : PDFDocument)
    (h : ¬(d.id = pid ∧ d.user_id = u)) :
    ((deselOther u pid d).id == pid && (deselOther u pid d).user_id == u) = false := by
  rw [deselOther_id, deselOther_user_id]
  by_cases hid : d.id = pid <;> by_cases huser : d.user_id = u <;> simp_all

theorem updateFirst_sel_none (u : Nat) (pid : String) (coll : List PDFDocument)
    (h : ∀ d ∈ coll, ¬(d.id = pid ∧ d.user_id = u)) :
    updateFirst (fun d => d.id == pid && d.user_id == u)
      (fun d => { d with is_selected_for_chat := true }) (coll.map (deselOther u pid))
      = none := by
  induction coll with
  | nil => rfl
  | cons d rest ih =>
      have hp := target_pred_false_of_not_match u pid d (h d (List.mem_cons_self d rest))
      simp only [List.map_cons, updateFirst, hp, Bool.false_eq_true, if_false]
      rw [ih fun e he => h e (List.mem_cons_of_mem d he)]
      rfl

theorem updateFirst_sel_some (u : Nat) (pid : String) (coll : List PDFDocument)
    (hnd : (coll.map PDFDocument.id).Nodup)
    (doc : PDFDocument) (hmem : doc ∈ coll) (hid : doc.id = pid) (huser : doc.user_id = u) :
    updateFirst (fun d => d.id == pid && d.user_id == u)
      (fun d => { d with is_selected_for_chat := true }) (coll.map (deselOther u pid))
      = some (coll.map (selApply u pid)) := by
  induction coll with
  | nil => cases hmem
  | cons d rest ih =>
      have hnd1 : d.id ∉ rest.map PDFDocument.id :=
        (List.nodup_cons.mp (by simpa using hnd)).1
      have hnd2 : (rest.map PDFDocument.id).Nodup :=
        (List.nodup_cons.mp (by simpa using hnd)).2
      by_cases hd : d.id = pid ∧ d.user_id = u
      · have hdes : deselOther u pid d = d := by
          unfold deselOther
          rw [if_neg (by simp [hd.1])]
        have hsel : selApply u pid d = { d with is_selected_for_chat := true } := by
          unfold selApply
          rw [if_pos (by simp [hd.1, hd.2])]
        have hrest : rest.map (deselOther u pid) = rest.map (selApply u pid) := by
          apply List.map_congr_left
          intro e he
          apply deselOther_eq_selApply_of_not_match
          rintro ⟨he1, -⟩
          exact hnd1 (by rw [hd.1, ← he1]; exact List.mem_map_of_mem PDFDocument.id he)
        simp only [List.map_cons, updateFirst, hdes]
        rw [if_pos (by simp [hd.1, hd.2]), hrest, hsel]
      · have hmem' : doc ∈ rest := by
          rcases List.mem_cons.mp hmem with rfl | h2
          · exact absurd ⟨hid, huser⟩ hd
          · exact h2
        have hp := target_pred_false_of_not_match u pid d hd
        simp only [List.map_cons, updateFirst, hp, Bool.false_eq_true, if_false]
        rw [ih hnd2 hmem']
        simp only [Option.map_some']
        rw [deselOther_eq_selApply_of_not_match u pid d hd]

theorem set_selected_some (coll : List PDFDocument) (u : Nat) (pid : String)
    (hv : isValidObjectId pid = true)
    (hnd : (coll.map PDFDocument.id).Nodup)
    (doc : PDFDocument) (hmem : doc ∈ coll) (hid : doc.id = pid) (huser : doc.user_id = u) :
    set_pdf_selected_for_chat coll u pid = (true, coll.map (selApply u pid)) := by
  unfold set_pdf_selected_for_chat
  rw [if_pos hv]
  simp only [updateFirst_sel_some u pid coll hnd doc hmem hid huser]

theorem set_selected_none (coll : List PDFDocument) (u : Nat) (pid : String)
    (hv : isValidObjectId pid = true)
    (h : ∀ d ∈ coll, ¬(d.id = pid ∧ d.user_id = u)) :
    set_pdf_selected_for_chat coll u pid = (false, coll.map (deselOther u pid)) := by
  unfold set_pdf_selected_for_chat
  rw [if_pos hv]
  simp only [updateFirst_sel_none u pid coll h]

/-! ## Selection: service-level characterization -/

theorem get_pdf_meta_by_id_some (coll : List PDFDocument) (pid : String) (uid : Nat)
    (doc : PDFDocument) (h : get_pdf_meta_by_id coll pid uid = some doc) :
    doc ∈ coll ∧ doc.id = pid ∧ doc.user_id = uid ∧ isValidObjectId pid = true := by
  unfold get_pdf_meta_by_id at h
  by_cases hv : isValidObjectId pid = true
  · rw [if_pos hv] at h
    have hmem := List.mem_of_find?_eq_some h
    have hp := List.find?_some h
    simp only [Bool.and_eq_true, beq_iff_eq] at hp
    exact ⟨hmem, hp.1, hp.2, hv⟩
  · rw [if_neg hv] at h
    cases h

theorem select_for_chat_ok_status (d : PDFDocument) (x : PDFDocument)
    (h : d.select_for_chat = .ok x) : d.parse_status = PDFParseStatus.PARSED_SUCCESS := by
  unfold PDFDocument.select_for_chat at h
  by_cases hs : d.parse_status = PDFParseStatus.PARSED_SUCCESS
  · exact hs
  · rw [if_pos hs] at h
    cases h

theorem select_ok_char (coll : List PDFDocument) (u : Nat) (pid : String)
    (resp : PDFSelectResponse) (coll2 : List PDFDocument)
    (hnd : (coll.map PDFDocument.id).Nodup)
    (h : select_pdf_for_chat coll u pid = (.ok resp, coll2)) :
    ∃ doc ∈ coll, doc.id = pid ∧ doc.user_id = u
      ∧ doc.parse_status = PDFParseStatus.PARSED_SUCCESS
      ∧ coll2 = coll.map (selApply u pid) := by
  rcases hfind : get_pdf_meta_by_id coll pid u with _ | doc
  · simp only [select_pdf_for_chat, hfind] at h
    cases h
  · obtain ⟨hmem, hid, huser, hv⟩ := get_pdf_meta_by_id_some coll pid u doc hfind
    rcases hsel : doc.select_for_chat with pid2 | x
    · simp only [select_pdf_for_chat, hfind, hsel] at h
      cases h
    · have hstatus := select_for_chat_ok_status doc x hsel
      have hset := set_selected_some coll u doc.id (hid ▸ hv) hnd doc hmem rfl huser
      simp only [select_pdf_for_chat, hfind, hsel, hset] at h
      cases h
      exact ⟨doc, hmem, hid, huser, hstatus, by rw [hid]⟩

theorem select_state_shape (coll : List PDFDocument) (u : Nat) (pid : String)
    (hnd : (coll.map PDFDocument.id).Nodup) :
    (select_pdf_for_chat coll u pid).2 = coll
    ∨ (∃ pid2, (select_pdf_for_chat coll u pid).2 = coll.map (selApply u pid2)) := by
  rcases hfind : get_pdf_meta_by_id coll pid u with _ | doc
  · exact Or.inl (by simp only [select_pdf_for_chat, hfind])
  · obtain ⟨hmem, hid, huser, hv⟩ := get_pdf_meta_by_id_some coll pid u doc hfind
    rcases hsel : doc.select_for_chat with pid2 | x
    · exact Or.inl (by simp only [select_pdf_for_chat, hfind, hsel])
    · have hset := set_selected_some coll u doc.id (hid ▸ hv) hnd doc hmem rfl huser
      simp only [select_pdf_for_chat, hfind, hsel, hset]
      exact Or.inr ⟨doc.id, rfl⟩

/-! ## Selection: counting -/

theorem selApply_selected_pred (u : Nat) (pid : String) (v : Nat) (d : PDFDocument) :
    ((selApply u pid d).user_id == v && (selApply u pid d).is_selected_for_chat)
      = (if v = u then d.user_id == u && d.id == pid
         else d.user_id == v && d.is_selected_for_chat) := by
  unfold selApply
  by_cases hvu : v = u <;> by_cases hid : d.id = pid <;> by_cases huser : d.user_id = u <;>
    by_cases hsel : d.is_selected_for_chat = true <;>
    simp_all <;> omega

theorem userSelectedCount_map_selApply_self (coll : List PDFDocument) (u : Nat) (pid : String)
    (hnd : (coll.map PDFDocument.id).Nodup) :
    userSelectedCount (coll.map (selApply u pid)) u ≤ 1 := by
  unfold userSelectedCount
  rw [List.countP_map]
  have h1 : coll.countP ((fun d => d.user_id == u && d.is_selected_for_chat) ∘ selApply u pid)
      ≤ coll.countP fun d => d.id == pid := by
    apply List.countP_mono_left
    intro d _ hd
    have h3 := selApply_selected_pred u pid u d
    rw [if_pos rfl] at h3
    rw [Function.comp_apply] at hd
    rw [h3] at hd
    simp only [Bool.and_eq_true, beq_iff_eq] at hd
    simpa using hd.2
  refine h1.trans ?_
  have h2 : (coll.countP fun d => d.id == pid) = (coll.map PDFDocument.id).count pid := by
    rw [List.count_eq_countP, List.countP_map]
    rfl
  rw [h2]
  exact List.nodup_iff_count_le_one.mp hnd pid

theorem userSelectedCount_map_selApply_other (coll : List PDFDocument) (u : Nat) (pid : String)
    (v : Nat) (hvu : v ≠ u) :
    userSelectedCount (coll.map (selApply u pid)) v = userSelectedCount coll v := by
  unfold userSelectedCount
  rw [List.countP_map]
  apply List.countP_congr
  intro d _
  have h2 := selApply_selected_pred u pid v d
  rw [if_neg hvu] at h2
  simp only [Function.comp_apply]
  rw [h2]

theorem userSelectedCount_le_length (coll : List PDFDocument) (u : Nat) :
    userSelectedCount coll u ≤ coll.length :=
  List.countP_le_length _

theorem ids_map_selApply (coll : List PDFDocument) (u : Nat) (pid : String) :
    (coll.map (selApply u pid)).map PDFDocument.id = coll.map PDFDocument.id := by
  rw [List.map_map]
  apply List.map_congr_left
  intro d _
  exact selApply_id u pid d

theorem ids_after_select (coll : List PDFDocument) (u : Nat) (pid : String)
    (hnd : (coll.map PDFDocument.id).Nodup) :
    ((select_pdf_for_chat coll u pid).2).map PDFDocument.id = coll.map PDFDocument.id := by
  rcases select_state_shape coll u pid hnd with h | ⟨pid2, h⟩
  · rw [h]
  · rw [h, ids_map_selApply]

theorem invariant_after_select (coll : List PDFDocument) (u : Nat) (pid : String) (v : Nat)
    (hnd : (coll.map PDFDocument.id).Nodup)
    (hinv : ∀ w, userSelectedCount coll w ≤ 1) :
    userSelectedCount ((select_pdf_for_chat coll u pid).2) v ≤ 1 := by
  rcases select_state_shape coll u pid hnd with h | ⟨pid2, h⟩
  · rw [h]
    exact hinv v
  · rw [h]
    by_cases hvu : v = u
    · subst hvu
      exact userSelectedCount_map_selApply_self coll v pid2 hnd
    · rw [userSelectedCount_map_selApply_other coll u pid2 v hvu]
      exact hinv v

theorem invariant_runSelects (ops : List (Nat × String)) :
    ∀ coll : List PDFDocument, (coll.map PDFDocument.id).Nodup →
      (∀ w, userSelectedCount coll w ≤ 1) →
      ∀ w, userSelectedCount (runSelects coll ops) w ≤ 1 := by
  induction ops with
  | nil => intro coll _ hinv w; exact hinv w
  | cons op rest ih =>
      intro coll hnd hinv w
      have hstep : runSelects coll (op :: rest)
          = runSelects ((select_pdf_for_chat coll op.1 op.2).2) rest := rfl
      rw [hstep]
      refine ih _ ?_ ?_ w
      · rw [ids_after_select coll op.1 op.2 hnd]
        exact hnd
      · intro w2
        exact invariant_after_select coll op.1 op.2 w2 hnd hinv

theorem selApply_sel_iff (u : Nat) (pid : String) (d : PDFDocument) (h : d.user_id = u) :
    ((selApply u pid d).is_selected_for_chat = true) ↔ d.id = pid := by
  unfold selApply
  by_cases hid : d.id = pid <;> by_cases hsel : d.is_selected_for_chat = true <;> simp_all

/-- C3: from any duplicate-free collection satisfying the at-most-one-selected
invariant, (i) every sequence of `select_pdf_for_chat` calls preserves "at
most one document selected per user"; (ii) after user `u` successfully
selects document A and then document B, exactly `u`'s documents with id B are
selected (so A, if different, is deselected, and B is selected); and (iii) a
successful selection only ever newly selects a document whose parse status is
PARSED_SUCCESS (every selected document in the new state either was already
stored or is the PARSED_SUCCESS target). -/
theorem select_for_chat_exclusive (coll : List PDFDocument)
    (hnd : (coll.map PDFDocument.id).Nodup)
    (hinv : ∀ w, userSelectedCount coll w ≤ 1) :
    (∀ ops : List (Nat × String), ∀ w, userSelectedCount (runSelects coll ops) w ≤ 1)
    ∧ (∀ (u : Nat) (pidA pidB : String) (respA respB : PDFSelectResponse)
        (collA collB : List PDFDocument),
        select_pdf_for_chat coll u pidA = (.ok respA, collA) →
        select_pdf_for_chat collA u pidB = (.ok respB, collB) →
        ((∀ d ∈ collB, d.user_id = u → (d.is_selected_for_chat = true ↔ d.id = pidB))
          ∧ ∃ d ∈ collB, d.user_id = u ∧ d.id = pidB ∧ d.is_selected_for_chat = true))
    ∧ (∀ (u : Nat) (pid : String) (resp : PDFSelectResponse) (coll2 : List PDFDocument),
        select_pdf_for_chat coll u pid = (.ok resp, coll2) →
        ∀ d ∈ coll2, d.is_selected_for_chat = true →
          d ∈ coll ∨ d.parse_status = PDFParseStatus.PARSED_SUCCESS) := by
  refine ⟨fun ops w => invariant_runSelects ops coll hnd hinv w, ?_, ?_⟩
  · intro u pidA pidB respA respB collA collB h1 h2
    obtain ⟨docA, hmemA, hidA, huserA, hstatusA, hcollA⟩ :=
      select_ok_char coll u pidA respA collA hnd h1
    have hndA : (collA.map PDFDocument.id).Nodup := by
      rw [hcollA, ids_map_selApply]
      exact hnd
    obtain ⟨docB, hmemB, hidB, huserB, hstatusB, hcollB⟩ :=
      select_ok_char collA u pidB respB collB hndA h2
    constructor
    · intro d hd huser
      rw [hcollB] at hd
      obtain ⟨e, he, rfl⟩ := List.mem_map.mp hd
      have huserE : e.user_id = u := by
        rw [← selApply_user_id u pidB e]
        exact huser
      rw [selApply_id]
      exact selApply_sel_iff u pidB e huserE
    · refine ⟨selApply u pidB docB, ?_, ?_, ?_, ?_⟩
      · rw [hcollB]
        exact List.mem_map_of_mem _ hmemB
      · rw [selApply_user_id]
        exact huserB
      · rw [selApply_id]
        exact hidB
      · unfold selApply
        rw [if_pos (by simp [hidB, huserB])]
  · intro u pid resp coll2 h d hd hsel
    obtain ⟨doc, hmem, hid, huser, hstatus, hcoll2⟩ :=
      select_ok_char coll u pid resp coll2 hnd h
    rw [hcoll2] at hd
    obtain ⟨e, he, rfl⟩ := List.mem_map.mp hd
    by_cases huserE : e.user_id = u
    · have hide : e.id = pid := (selApply_sel_iff u pid e huserE).mp hsel
      have hed : e = doc :=
        List.inj_on_of_nodup_map hnd he hmem (by rw [hide, hid])
      right
      rw [selApply_parse_status, hed]
      exact hstatus
    · left
      have hone : selApply u pid e = e := by
        unfold selApply
        rw [if_neg (by simp [huserE]), if_neg (by simp [huserE])]
      rw [hone]
      exact he

/-- Witness for `select_for_chat_exclusive`: after user 7 selects document A
and then document B of the two-document fixture collection, at most one of
user 7's documents is selected. -/
theorem select_for_chat_exclusive_witness :
    userSelectedCount (runSelects cCollAB
      [(7, "aaaaaaaaaaaaaaaaaaaaaaaa"), (7, "bbbbbbbbbbbbbbbbbbbbbbbb")]) 7 ≤ 1 :=
  (select_for_chat_exclusive cCollAB (by decide)
      (fun w => by simp [userSelectedCount, cCollAB, cDocA, cDocB, List.countP_cons])).1
    [(7, "aaaaaaaaaaaaaaaaaaaaaaaa"), (7, "bbbbbbbbbbbbbbbbbbbbbbbb")] 7

/-! ## Parse request: outcomes at concrete fixtures -/

/-- C5 evaluation: the service guards do fire for a missing document and for
a PARSING / PARSED_SUCCESS document, but what they raise is `TypeError`
(`PDFNotFoundError` / `PDFAlreadyParsingError` are constructed with a keyword
argument their class rejects), and the route handler — which catches only a
genuine `PDFNotFoundError` and otherwise falls through to its generic
`Exception` branch — answers 500, not 404/409, in both failure cases; the
success case does answer 202 with status PARSING. -/
theorem request_parsing_outcomes_at_fixtures :
    ((request_pdf_parsing [cDocParsing] 7 "cccccccccccccccccccccccc").1
        = .error (.typeError "PDFAlreadyParsingError() takes no keyword arguments")
      ∧ request_pdf_parsing_endpoint [cDocParsing] 7 "cccccccccccccccccccccccc"
        = .httpError 500 "An error occurred while requesting PDF parsing.")
    ∧ ((request_pdf_parsing cCollAB 7 "aaaaaaaaaaaaaaaaaaaaaaaa").1
        = .error (.typeError "PDFAlreadyParsingError() takes no keyword arguments"))
    ∧ ((request_pdf_parsing [cDocU] 7 "cccccccccccccccccccccccc").1
        = .error (.typeError "PDFNotFoundError() takes no keyword arguments")
      ∧ request_pdf_parsing_endpoint [cDocU] 7 "cccccccccccccccccccccccc"
        = .httpError 500 "An error occurred while requesting PDF parsing.")
    ∧ ((request_pdf_parsing [cDocU] 7 "dddddddddddddddddddddddd").1
        = .ok { pdf_id := "dddddddddddddddddddddddd", status := .PARSING,
                message := "PDF parsing initiated." }
      ∧ request_pdf_parsing_endpoint [cDocU] 7 "dddddddddddddddddddddddd"
        = .ok 202 { pdf_id := "dddddddddddddddddddddddd", status := .PARSING,
                    message := "PDF parsing initiated." }) := by
  refine ⟨⟨?_, ?_⟩, ?_, ⟨?_, ?_⟩, ?_, ?_⟩ <;> decide

/-- C10 evaluation: for a malformed ObjectId string the metadata lookup
returns `none` rather than raising, and `request_pdf_parsing` /
`select_pdf_for_chat` then fail exactly as for an unknown but well-formed id
— but the common failure is the `TypeError` produced by
`PDFNotFoundError(pdf_id=...)`, not a `PDFNotFoundError`. -/
theorem malformed_id_fails_like_unknown :
    isValidObjectId "not-an-objectid" = false
    ∧ isValidObjectId "eeeeeeeeeeeeeeeeeeeeeeee" = true
    ∧ get_pdf_meta_by_id cCollAB "not-an-objectid" 7 = none
    ∧ get_pdf_meta_by_id cCollAB "eeeeeeeeeeeeeeeeeeeeeeee" 7 = none
    ∧ (request_pdf_parsing cCollAB 7 "not-an-objectid").1
        = (request_pdf_parsing cCollAB 7 "eeeeeeeeeeeeeeeeeeeeeeee").1
    ∧ (select_pdf_for_chat cCollAB 7 "not-an-objectid").1
        = (select_pdf_for_chat cCollAB 7 "eeeeeeeeeeeeeeeeeeeeeeee").1
    ∧ (request_pdf_parsing cCollAB 7 "not-an-objectid").1
        = .error (.typeError "PDFNotFoundError() takes no keyword arguments")
    ∧ (select_pdf_for_chat cCollAB 7 "not-an-objectid").1
        = .error (.typeError "PDFNotFoundError() takes no keyword arguments") := by
  refine ⟨?_, ?_, ?_, ?_, ?_, ?_, ?_, ?_⟩ <;> decide

/-! ## Chat submission -/

/-- C6: when the user has no document flagged as selected for chat,
`submit_user_message` fails with `NoPDFSelectedForChatError` and the state is
untouched: no chat turn is created and no LLM task is deferred. -/
theorem submit_without_selection_fails (st : ChatState) (uid : Nat) (msg : String) (now : Nat)
    (h : ∀ d ∈ st.pdfColl, ¬(d.user_id = uid ∧ d.is_selected_for_chat = true)) :
    submit_user_message st uid msg now = (.error .noPDFSelectedForChat, st)
    ∧ (submit_user_message st uid msg now).2.chatLogs = st.chatLogs
    ∧ (submit_user_message st uid msg now).2.deferredLLM = st.deferredLLM := by
  have hfind : get_selected_pdf_for_user st.pdfColl uid = none := by
    unfold get_selected_pdf_for_user
    rw [List.find?_eq_none]
    intro d hd
    simp only [Bool.and_eq_true, beq_iff_eq]
    intro hc
    exact h d hd ⟨hc.1, hc.2⟩
  have heq : submit_user_message st uid msg now = (.error .noPDFSelectedForChat, st) := by
    simp only [submit_user_message, hfind]
  exact ⟨heq, by rw [heq], by rw [heq]⟩

/-- Witness for `submit_without_selection_fails`: user 7 owns two documents,
neither selected. -/
theorem submit_without_selection_fails_witness :
    submit_user_message cChatStateNoSel 7 "hello" 5
      = (.error .noPDFSelectedForChat, cChatStateNoSel) :=
  (submit_without_selection_fails cChatStateNoSel 7 "hello" 5 (by decide)).1

/-! ## Background LLM task: status writes -/

/-- C2 counterexample: on a fully successful run the task writes
COMPLETED_SUCCESS directly onto the PENDING turn — the status sequence is
`[PENDING, COMPLETED_SUCCESS]` and PROCESSING never occurs, refuting "the
turn's status passes through PROCESSING before reaching a terminal state". -/
theorem turn_skips_processing_counterexample :
    cTurnPending.llm_response_status = .PENDING
    ∧ (defer_llm_task (some cTurnPending) cEnvSuccess 1 5).map
        (fun t => t.llm_response_status) = [.COMPLETED_SUCCESS]
    ∧ LLMResponseStatus.PROCESSING ∉
        cTurnPending.llm_response_status ::
          (defer_llm_task (some cTurnPending) cEnvSuccess 1 5).map
            (fun t => t.llm_response_status) := by
  refine ⟨rfl, ?_, ?_⟩ <;> decide

/-- C2 amended: the background task never sets PROCESSING.  Every status it
writes is terminal (COMPLETED_SUCCESS or FAILED_RETRIES_EXHAUSTED), and for
an existing turn it performs exactly one write, so the turn transitions
directly from PENDING to a terminal state. -/
theorem task_never_writes_processing (chat_turn : Option ChatMessageTurn) (env : LLMTaskEnv)
    (tid now : Nat) :
    (∀ w ∈ defer_llm_task chat_turn env tid now,
        w.llm_response_status = .COMPLETED_SUCCESS
        ∨ w.llm_response_status = .FAILED_RETRIES_EXHAUSTED)
    ∧ (∀ turn, chat_turn = some turn → (defer_llm_task chat_turn env tid now).length = 1) := by
  constructor
  · intro w hw
    rcases chat_turn with _ | turn
    · simp [defer_llm_task] at hw
    · rcases hpt : env.parsed_text with _ | ptext
      · simp only [defer_llm_task, hpt, List.mem_singleton] at hw
        subst hw
        exact Or.inr rfl
      · rcases hin : innerTryOutcome env with msg | t
        · simp only [defer_llm_task, hpt, hin, List.mem_singleton] at hw
          subst hw
          exact Or.inr rfl
        · simp only [defer_llm_task, hpt, hin, List.mem_singleton] at hw
          subst hw
          exact Or.inl rfl
  · rintro turn rfl
    rcases hpt : env.parsed_text with _ | ptext
    · simp [defer_llm_task, hpt]
    · rcases hin : innerTryOutcome env with msg | t <;> simp [defer_llm_task, hpt, hin]

/-- Witness for `task_never_writes_processing` at the missing-parsed-text
fixture. -/
theorem task_never_writes_processing_witness :
    (defer_llm_task (some cTurnPending) cEnvNoText 2 5).length = 1 :=
  (task_never_writes_processing (some cTurnPending) cEnvNoText 2 5).2 cTurnPending rfl

/-- C1 evaluation at the failing input: with the turn present and the parsed
text missing, the task records FAILED_RETRIES_EXHAUSTED whose content is the
generic unexpected-error message (with the AttributeError text "FAILED"
interpolated) — not the categorized message
"Error: Could not retrieve parsed PDF content." that the assignment after
the AttributeError-raising line was meant to store. -/
theorem missing_parsed_text_generic_failure :
    defer_llm_task (some cTurnPending) cEnvNoText 1 5
      = [{ cTurnPending with
           llm_response_status := .FAILED_RETRIES_EXHAUSTED,
           llm_response_content := some
             "LLM Error: An unexpected error occurred during LLM task for chat turn 1: FAILED" }]
    ∧ ∀ w ∈ defer_llm_task (some cTurnPending) cEnvNoText 1 5,
        ¬ w.llm_response_content = some "Error: Could not retrieve parsed PDF content." := by
  constructor <;> decide

/-! ## Background parse task -/

theorem updateFirst_exists (p : α → Bool) (f : α → α) (l : List α) (a : α)
    (ha : a ∈ l) (hpa : p a = true) : ∃ l2, updateFirst p f l = some l2 := by
  induction l with
  | nil => cases ha
  | cons b rest ih =>
      by_cases hb : p b = true
      · exact ⟨f b :: rest, by simp [updateFirst, hb]⟩
      · rcases List.mem_cons.mp ha with rfl | ha2
        · exact absurd hpa hb
        · obtain ⟨l2, hl2⟩ := ih ha2
          exact ⟨b :: l2, by simp [updateFirst, hb, hl2]⟩

theorem updateFirst_find (p : α → Bool) (f : α → α) (l l2 : List α)
    (hpf : ∀ a, p (f a) = p a)
    (hupd : updateFirst p f l = some l2) :
    l2.find? p = (l.find? p).map f := by
  induction l generalizing l2 with
  | nil => cases hupd
  | cons b rest ih =>
      by_cases hb : p b = true
      · simp only [updateFirst, hb, if_true] at hupd
        cases hupd
        rw [List.find?_cons_of_pos _ (by rw [hpf]; exact hb),
          List.find?_cons_of_pos _ hb]
        rfl
      · simp only [updateFirst, hb, Bool.false_eq_true, if_false] at hupd
        obtain ⟨rest2, hrest2, rfl⟩ := Option.map_eq_some'.mp hupd
        rw [List.find?_cons_of_neg _ hb, List.find?_cons_of_neg _ hb]
        exact ih rest2 hrest2

theorem placeholder_ne_empty (n : Nat) :
    ("[Error extracting page " ++ toString n ++ "]") ≠ "" := by
  intro h
  have h2 := congrArg String.length h
  rw [String.length_append, String.length_append] at h2
  have e1 : "[Error extracting page ".length = 23 := rfl
  have e2 : "]".length = 1 := rfl
  have e3 : "".length = 0 := rfl
  omega

/-- C7: for a stored document, (i) a run of the background parse task whose
binary is present, whose reader does not raise, and whose store insert
succeeds — even one with failing pages — persists, as a new record for the
document, the per-page texts (placeholder strings standing in for pages
whose extraction raised) concatenated with single-space separators, and marks
the document PARSED_SUCCESS with a reference to the new record; (ii) when
the flow raises (here: the reader), the document is marked PARSED_FAILURE
with a message derived from the exception.  Successful page texts are
assumed nonempty, matching the `filter(None, parts)` of the source. -/
theorem parse_task_flow (coll : List PDFDocument) (texts : List (String × String))
    (env : ParseTaskEnv) (pdf_id : String) (uid : Nat) (doc : PDFDocument)
    (hfind : get_pdf_meta_by_id coll pdf_id uid = some doc) :
    (env.binaryPresent = true → env.readOutcome = Except.ok () → env.saveFails = none →
      env.pages.all pageNonempty = true →
      (dummy_defer_parse_task coll texts env pdf_id uid).2
          = texts ++ [(doc.id, String.intercalate " "
              (env.pages.enum.map fun pr => extractedPageText pr.1 pr.2))]
      ∧ get_pdf_meta_by_id (dummy_defer_parse_task coll texts env pdf_id uid).1 pdf_id uid
          = some (doc.mark_parse_success env.newTextId))
    ∧ (∀ msg, env.binaryPresent = true → env.readOutcome = Except.error msg →
      (dummy_defer_parse_task coll texts env pdf_id uid).2 = texts
      ∧ get_pdf_meta_by_id (dummy_defer_parse_task coll texts env pdf_id uid).1 pdf_id uid
          = some (doc.mark_parse_failure
              ("Error during PDF parsing task for PDF ID " ++ pdf_id ++ ": " ++ msg))) := by
  obtain ⟨hmem, hid, huser, hv⟩ := get_pdf_meta_by_id_some coll pdf_id uid doc hfind
  subst hid
  subst huser
  have hfind2 : coll.find? (fun d => d.id == doc.id && d.user_id == doc.user_id) = some doc := by
    unfold get_pdf_meta_by_id at hfind
    rw [if_pos hv] at hfind
    exact hfind
  constructor
  · intro hb hro hsf hne
    have hpa : (doc.id == (doc.mark_parse_success env.newTextId).id
        && doc.user_id == (doc.mark_parse_success env.newTextId).user_id) = true := by
      simp [PDFDocument.mark_parse_success]
    obtain ⟨coll2, hupd⟩ := updateFirst_exists
      (fun x => x.id == (doc.mark_parse_success env.newTextId).id
        && x.user_id == (doc.mark_parse_success env.newTextId).user_id)
      (setMetaFields (doc.mark_parse_success env.newTextId)) coll doc hmem hpa
    have hupdm : update_pdf_meta coll (doc.mark_parse_success env.newTextId) = .ok coll2 := by
      unfold update_pdf_meta
      rw [if_pos (show isValidObjectId (doc.mark_parse_success env.newTextId).id = true from hv),
        hupd]
    have hfilter : (env.pages.enum.map fun pr => extractedPageText pr.1 pr.2).filter
        (fun s => !(s == "")) = env.pages.enum.map fun pr => extractedPageText pr.1 pr.2 := by
      rw [List.filter_eq_self]
      intro s hs
      obtain ⟨pr, hpr, rfl⟩ := List.mem_map.mp hs
      have hmem2 : pr.2 ∈ env.pages := by
        have h3 := List.mem_map_of_mem Prod.snd hpr
        rwa [List.enum_map_snd] at h3
      rcases hp2 : pr.2 with msg | t
      · simp only [extractedPageText]
        simpa using placeholder_ne_empty pr.1
      · simp only [extractedPageText]
        have hall := List.all_eq_true.mp hne pr.2 hmem2
        rw [hp2] at hall
        simpa [pageNonempty] using hall
    have htask : dummy_defer_parse_task coll texts env doc.id doc.user_id
        = (coll2, texts ++ [(doc.id, String.intercalate " "
            (env.pages.enum.map fun pr => extractedPageText pr.1 pr.2))]) := by
      simp only [dummy_defer_parse_task, hfind, hb, hro, hsf, hupdm, hfilter]
      simp
    rw [htask]
    refine ⟨rfl, ?_⟩
    have hfm := updateFirst_find
      (fun x => x.id == (doc.mark_parse_success env.newTextId).id
        && x.user_id == (doc.mark_parse_success env.newTextId).user_id)
      (setMetaFields (doc.mark_parse_success env.newTextId)) coll coll2 (fun a => rfl) hupd
    dsimp only [PDFDocument.mark_parse_success] at hfm
    rw [hfind2] at hfm
    unfold get_pdf_meta_by_id
    rw [if_pos hv]
    rw [hfm]
    rfl
  · intro msg hb hro
    have hpa : (doc.id == (doc.mark_parse_failure
          ("Error during PDF parsing task for PDF ID " ++ doc.id ++ ": " ++ msg)).id
        && doc.user_id == (doc.mark_parse_failure
          ("Error during PDF parsing task for PDF ID " ++ doc.id ++ ": " ++ msg)).user_id)
        = true := by
      simp [PDFDocument.mark_parse_failure]
    obtain ⟨coll2, hupd⟩ := updateFirst_exists
      (fun x => x.id == (doc.mark_parse_failure
          ("Error during PDF parsing task for PDF ID " ++ doc.id ++ ": " ++ msg)).id
        && x.user_id == (doc.mark_parse_failure
          ("Error during PDF parsing task for PDF ID " ++ doc.id ++ ": " ++ msg)).user_id)
      (setMetaFields (doc.mark_parse_failure
          ("Error during PDF parsing task for PDF ID " ++ doc.id ++ ": " ++ msg)))
      coll doc hmem hpa
    have hupdm : update_pdf_meta coll (doc.mark_parse_failure
        ("Error during PDF parsing task for PDF ID " ++ doc.id ++ ": " ++ msg)) = .ok coll2 := by
      unfold update_pdf_meta
      rw [if_pos (show isValidObjectId (doc.mark_parse_failure
          ("Error during PDF parsing task for PDF ID " ++ doc.id ++ ": " ++ msg)).id = true
        from hv), hupd]
    have htask : dummy_defer_parse_task coll texts env doc.id doc.user_id
        = (coll2, texts) := by
      simp only [dummy_defer_parse_task, hfind, hb, hro, parseTaskGenericHandler, hupdm]
      simp
    rw [htask]
    refine ⟨rfl, ?_⟩
    have hfm := updateFirst_find
      (fun x => x.id == (doc.mark_parse_failure
          ("Error during PDF parsing task for PDF ID " ++ doc.id ++ ": " ++ msg)).id
        && x.user_id == (doc.mark_parse_failure
          ("Error during PDF parsing task for PDF ID " ++ doc.id ++ ": " ++ msg)).user_id)
      (setMetaFields (doc.mark_parse_failure
          ("Error during PDF parsing task for PDF ID " ++ doc.id ++ ": " ++ msg)))
      coll coll2 (fun a => rfl) hupd
    dsimp only [PDFDocument.mark_parse_failure] at hfm
    rw [hfind2] at hfm
    unfold get_pdf_meta_by_id
    rw [if_pos hv]
    rw [hfm]
    rfl

/-- Witness for `parse_task_flow`: a document whose middle page extraction
raises still parses to "hello [Error extracting page 1] world" and is marked
PARSED_SUCCESS with the new record's id. -/
theorem parse_task_flow_witness :
    (dummy_defer_parse_task [cDocU] [] cParseEnv "dddddddddddddddddddddddd" 7).2
        = [("dddddddddddddddddddddddd", String.intercalate " "
            (cParseEnv.pages.enum.map fun pr => extractedPageText pr.1 pr.2))]
    ∧ get_pdf_meta_by_id (dummy_defer_parse_task [cDocU] [] cParseEnv
          "dddddddddddddddddddddddd" 7).1 "dddddddddddddddddddddddd" 7
        = some (cDocU.mark_parse_success "ffffffffffffffffffffffff") :=
  (parse_task_flow [cDocU] [] cParseEnv "dddddddddddddddddddddddd" 7 cDocU (by decide)).1
    rfl rfl rfl (by decide)

end PdfChat
